import Mathlib

/-!
Verification development for the `image-gen-ui-automation` repository.

The repository is a Python CLI (`main.py`) that dispatches, via a flat table,
to one of several browser-automation site drivers (`src/*.py`), plus a local
PIL-based mock driver.  The definitions below are a shallow embedding of the
control flow of `main.py` and of the site drivers; external effects
(filesystem, HTTP, browser) are modelled by explicit state / oracle arguments.
-/

namespace ImageGenUI

/-! ## String helpers (substring test used for the Python `in` operator) -/

/-- Boolean prefix test on character lists. -/
def charPrefix : List Char → List Char → Bool
  | [], _ => true
  | _ :: _, [] => false
  | a :: as, b :: bs => a == b && charPrefix as bs

/-- Boolean substring test on character lists. -/
def charSub (needle : List Char) : List Char → Bool
  | [] => needle.isEmpty
  | c :: t => charPrefix needle (c :: t) || charSub needle t

/-- Models the Python expression `needle in hay` on strings; `strContains hay needle`. -/
def strContains (hay needle : String) : Bool :=
  charSub needle.data hay.data

/-- Models the Python expression `s.startswith(pre)` on strings. -/
def strStartsWith (s pre : String) : Bool :=
  charPrefix pre.data s.data

/-! ## `main.py`: dispatch tables

Embedding of the `IMAGE_SERVICES` and `CHAT_SERVICES` dictionaries
(`main.py` lines 26-87). -/

structure ServiceInfo where
  module : String
  function : String
  description : String
  requires_input : Bool
  generates_new : Bool := false
  generates_text : Bool := false
deriving DecidableEq, Repr

def IMAGE_SERVICES : List (String × ServiceInfo) :=
  [ ("mock",
     { module := "mock_image_alteration", function := "mock_image_automation",
       description := "Mock automation using PIL transformations (always works)",
       requires_input := true, generates_new := true }),
    ("bing",
     { module := "bing_image_alteration", function := "bing_image_automation",
       description := "Bing Image Creator automation",
       requires_input := false, generates_new := true }),
    ("craiyon",
     { module := "craiyon_image_alteration", function := "craiyon_image_automation",
       description := "Craiyon (DALL-E mini) automation",
       requires_input := false, generates_new := true }),
    ("deepai",
     { module := "deepai_image_alteration", function := "deepai_retry_automation",
       description := "DeepAI Text-to-Image automation (confirmed working)",
       requires_input := false, generates_new := true }) ]

def CHAT_SERVICES : List (String × ServiceInfo) :=
  [ ("openai",
     { module := "openai_chat_completion", function := "openai_chat_automation",
       description := "OpenAI ChatGPT web interface automation",
       requires_input := false, generates_text := true }),
    ("claude",
     { module := "claude_chat_completion", function := "claude_chat_automation",
       description := "Anthropic Claude web interface automation",
       requires_input := false, generates_text := true }),
    ("gemini",
     { module := "gemini_chat_completion", function := "gemini_chat_automation",
       description := "Google Gemini web interface automation",
       requires_input := false, generates_text := true }),
    ("perplexity",
     { module := "perplexity_chat_completion", function := "perplexity_chat_automation",
       description := "Perplexity AI web interface automation",
       requires_input := false, generates_text := true }) ]

/-- The Python modules that actually exist under `src/` (one per file). -/
def SRC_MODULES : List String :=
  [ "bing_image_alteration", "claude_chat_completion", "craiyon_image_alteration",
    "deepai_image_alteration", "gemini_chat_completion", "mock_automation",
    "openai_chat_completion", "perplexity_chat_completion" ]

/-- Dictionary lookup, modelling `available_services[key]` / `key in available_services`. -/
def lookupService (tbl : List (String × ServiceInfo)) (s : String) : Option ServiceInfo :=
  (tbl.find? (fun p => p.1 == s)).map Prod.snd

/-- Models `IMAGE_SERVICES if self.mode == "image" else CHAT_SERVICES`. -/
def availableServices (mode : String) : List (String × ServiceInfo) :=
  if mode == "image" then IMAGE_SERVICES else CHAT_SERVICES

/-! ## `main.py`: CLI argument handling and exit code (lines 268-363)

`argparse` is modelled at its documented behaviour: a value for `--mode`
outside `choices=["image", "text"]` makes `parse_args` call `parser.error`,
which exits the process with status 2; otherwise parsing yields the
arguments unchanged (all flags have defaults). -/

def DEFAULT_INPUT : String := "./data/input/dogs-playing-poker-original.jpg"
def DEFAULT_OUTPUT_DIR : String := "./data/output/"
def DEFAULT_PROMPT : String := "anthropomorphize these animals"
def DEFAULT_SERVICE : String := "deepai"
def DEFAULT_MODE : String := "image"

def MODE_CHOICES : List String := ["image", "text"]

/-- Embedding of `AutomationRunner.validate_service` (`main.py` lines 110-118). -/
def validate_service (mode service : String) : Bool :=
  (lookupService (availableServices mode) service).isSome

/-- Embedding of `AutomationRunner.validate_input` (`main.py` lines 120-134).
Here `inputFile` is the `self.input_file` field and `inputExists` models
`self.input_file.exists()`.  Only called after `validate_service` succeeded,
so the dictionary access is total here. -/
def validate_input (mode service : String) (inputFile : Option String)
    (inputExists : Bool) : Bool :=
  match lookupService (availableServices mode) service with
  | none => true  -- unreachable in the main flow (validate_service ran first)
  | some info =>
    if mode == "image" && info.requires_input then
      inputFile.isSome && inputExists
    else
      true

/-- Outcome of `asyncio.run(runner.run_service())` as observed by `main`
(`main.py` lines 345-363). -/
inductive RunOutcome
  | success        -- run_service returned True
  | failure        -- run_service returned False
  | interrupted    -- KeyboardInterrupt escaped
  | unexpectedErr  -- some other exception escaped
deriving DecidableEq, Repr

/-- Models `main.py` line 335: the `input_file` argument passed to the runner. -/
def mainInputFile (input : String) (inputExists : Bool) : Option String :=
  if input != DEFAULT_INPUT || inputExists then some input else none

/-- Process exit code of one invocation of `main` (`main.py` lines 268-363),
as a function of the raw `--mode`/`--service`/`--input` values, whether the
input path exists, the `--list-services` flag, and the run outcome.
Exit 2 is the `argparse` status for an invalid `--mode` choice. -/
def mainExit (mode service input : String) (inputExists listFlag : Bool)
    (out : RunOutcome) : Nat :=
  if !(MODE_CHOICES.contains mode) then 2
  else if listFlag then 0
  else
    let inputFile := mainInputFile input inputExists
    if !(validate_service mode service) then 1
    else if !(validate_input mode service inputFile inputExists) then 1
    else
      match out with
      | .success => 0
      | .failure => 1
      | .interrupted => 1
      | .unexpectedErr => 1

/-! ## `AutomationRunner.run_service` (`main.py` lines 146-216)

The dictionary access `available_services[self.service]` on line 149 happens
BEFORE the `try:` on line 151, so a missing key raises `KeyError` to the
caller.  Everything from line 151 on is wrapped in `try ... except Exception`,
which logs an `automation_error` event and returns `False`.  The dynamic
`__import__` fails with `ModuleNotFoundError` when the configured module name
does not correspond to a file under `src/`.  The automation call itself is an
external effect, supplied as `autoResult`. -/

/-- Session-log events appended by `log_session` (`main.py` lines 136-144). -/
inductive LogEvent
  | automation_start
  | automation_success
  | automation_failed
  | automation_error (errType : String)
deriving DecidableEq, Repr

/-- Result of running a piece of Python code: a value, or an uncaught
exception (identified by its type name). -/
inductive PyResult (α : Type)
  | ok (a : α) : PyResult α
  | exn (e : String) : PyResult α
deriving DecidableEq, Repr

/-- Embedding of `AutomationRunner.run_service`.  Returns the boolean result paired with
the session-log events recorded during the call, or an escaping exception. -/
def run_service (mode service : String) (autoResult : PyResult Bool) :
    PyResult (Bool × List LogEvent) :=
  -- line 149: dict access outside the try block
  match lookupService (availableServices mode) service with
  | none => .exn "KeyError"
  | some info =>
    -- lines 151-216: try/except Exception
    let log0 := [LogEvent.automation_start]
    if SRC_MODULES.contains info.module then
      -- import succeeded; every src module defines the function the table
      -- names for it, so getattr succeeds and the automation runs
      match autoResult with
      | .ok true => .ok (true, log0 ++ [.automation_success])
      | .ok false => .ok (false, log0 ++ [.automation_failed])
      | .exn e => .ok (false, log0 ++ [.automation_error e])
    else
      -- __import__ raised ModuleNotFoundError, caught by the broad except
      .ok (false, log0 ++ [.automation_error "ModuleNotFoundError"])

/-! ## Selector probing (C4)

Every driver probes a fixed, ordered list of CSS selectors with
`page.wait_for_selector(sel, timeout=...)` inside `try: ... except: continue`,
breaking on the first selector whose wait returns an element (e.g.
`deepai_image_alteration.py` lines 61-69, `openai_chat_completion.py` lines
98-106).  The page behaviour is an oracle: `oracle sel = some e` means the
wait succeeded with element `e`; `none` means it raised (timeout). -/

/-- One probe loop: `for selector in selectors: try: wait; if elem: break;
except: continue`. -/
def probeSelectors {E : Type} (oracle : String → Option E) :
    List String → Option (String × E)
  | [] => none
  | s :: rest =>
    match oracle s with
    | some e => some (s, e)
    | none => probeSelectors oracle rest

/-- URL list of `deepai_image_alteration.py` lines 39-43. -/
def deepai_urls : List String :=
  [ "https://deepai.org/machine-learning-model/text2img",
    "https://deepai.org/machine-learning-model/cute-creature-generator",
    "https://deepai.org/" ]

/-- Input selector list of `deepai_image_alteration.py` lines 52-59. -/
def deepai_input_selectors : List String :=
  [ "textarea[name=\"text\"]", "textarea[placeholder*=\"Enter\"]",
    "input[name=\"text\"]", "textarea", "input[type=\"text\"]", "#text-input" ]

/-- Input selector list of `openai_chat_completion.py` lines 90-96. -/
def openai_input_selectors : List String :=
  [ "textarea[placeholder*=\"Message\"]", "textarea[data-id*=\"chat\"]",
    "div[contenteditable=\"true\"]", "textarea", "input[type=\"text\"]" ]

/-- The input-probe phase of `deepai_retry_automation` (lines 45-76 and the
surrounding URL loop): for each URL in order, probe the input selectors; on
the first URL where an input field is found the prompt is submitted and the
rest of the body runs (abstracted as `submitPhase`); if no URL yields an
input field the loop ends and the function falls through to `return False`.
Returns `(prompt submitted?, final result)`. -/
def deepaiUrlLoop {E : Type} (inputOracle : String → String → Option E)
    (submitPhase : String → Bool) : List String → Bool × Bool
  | [] => (false, false)
  | url :: rest =>
    match probeSelectors (inputOracle url) deepai_input_selectors with
    | some _ => (true, submitPhase url)
    | none => deepaiUrlLoop inputOracle submitPhase rest

def deepaiProbeRun {E : Type} (inputOracle : String → String → Option E)
    (submitPhase : String → Bool) : Bool × Bool :=
  deepaiUrlLoop inputOracle submitPhase deepai_urls

/-- The input-probe phase of `openai_chat_automation` (lines 98-207): if no
input selector matches, the driver logs, screenshots and falls through to
`return False` without ever filling the prompt. -/
def openaiProbeRun {E : Type} (inputOracle : String → Option E)
    (submitPhase : E → Bool) : Bool × Bool :=
  match probeSelectors inputOracle openai_input_selectors with
  | some (_, e) => (true, submitPhase e)
  | none => (false, false)

/-! ## Download / result phase (C3)

After a result selector matched a nonempty image list, the drivers do NOT
return `True` unconditionally: `deepai_image_alteration.py` lines 107-150
require, for the first two images, either a `data:image` src whose base64
payload decodes to more than 5000 bytes, or an HTTP fetch with status 200
and a body of more than 5000 bytes; `bing_image_alteration.py` lines 148-172
require a src containing "bing.com", HTTP status 200 and a body of more than
1000 bytes among the first three images.  When no image qualifies the loops
fall through and the driver returns `False`. -/

/-- A matched `<img>` element together with the outcome of the external
effects on it: the `src` attribute, the decoded length of a `data:` URL
payload, and the HTTP status / body length of fetching a non-data src. -/
structure Img where
  src : Option String
  dataLen : Nat
  status : Nat
  bodyLen : Nat
deriving DecidableEq, Repr

/-- Embedding of `deepai_image_alteration.py` lines 113-144: the `for i, img in
enumerate(images[:2])` body (the caller applies `take 2`). -/
def deepaiImgLoop : List Img → Bool
  | [] => false
  | img :: rest =>
    match img.src with
    | none => deepaiImgLoop rest
    | some s =>
      if strStartsWith s "data:image" then
        if img.dataLen > 5000 then true else deepaiImgLoop rest
      else
        if img.status == 200 then
          if img.bodyLen > 5000 then true else deepaiImgLoop rest
        else deepaiImgLoop rest

/-- Driver outcome once a deepai result selector has matched `imgs`:
`True` only if the download loop saved an image, else control breaks out of
every loop and the function returns `False` (line 166). -/
def deepaiOutcomeGivenMatch (imgs : List Img) : Bool :=
  deepaiImgLoop (imgs.take 2)

/-- Embedding of `bing_image_alteration.py` lines 150-170: the `for i, img in
enumerate(generated_images[:3])` body. -/
def bingImgLoop : List Img → Bool
  | [] => false
  | img :: rest =>
    match img.src with
    | none => bingImgLoop rest
    | some s =>
      if strContains s "bing.com" then
        if img.status == 200 then
          if img.bodyLen > 1000 then true else bingImgLoop rest
        else bingImgLoop rest
      else bingImgLoop rest

/-- Driver outcome once a bing image selector has matched `imgs` (line 191
returns `False` when the loop saved nothing). -/
def bingOutcomeGivenMatch (imgs : List Img) : Bool :=
  bingImgLoop (imgs.take 3)

/-- The success condition the deepai download loop actually enforces on one
image (used to state the amended C3). -/
def deepaiGoodImg (img : Img) : Bool :=
  match img.src with
  | none => false
  | some s =>
    if strStartsWith s "data:image" then img.dataLen > 5000
    else img.status == 200 && img.bodyLen > 5000

/-- The success condition the bing download loop actually enforces. -/
def bingGoodImg (img : Img) : Bool :=
  match img.src with
  | none => false
  | some s => strContains s "bing.com" && img.status == 200 && img.bodyLen > 1000

/-! ## Browser lifecycle (C5)

All seven playwright drivers share one skeleton (e.g.
`openai_chat_completion.py` lines 31-207, `deepai_image_alteration.py` lines
25-166):

    async with async_playwright() as p:
        browser = await p.chromium.launch(...)        -- once
        context = await browser.new_context(...)
        page = await context.new_page()
        try:
            <body: sequential awaits; may return True, fall through,
             raise Exception (caught: return False) or a BaseException>
        except Exception: ...; return False
        finally:
            await browser.close()
    return False

The model runs this skeleton under a failure specification for each await
that can raise, producing the function outcome and the ordered event trace.
Sequentiality is inherent: the body never spawns tasks, so the trace is a
single linear list. -/

inductive BrowserEvent
  | launch
  | newContext
  | newPage
  | bodyOps       -- the awaits performed inside the try block
  | close
deriving DecidableEq, Repr

/-- How the try-block body ends. -/
inductive BodyOutcome
  | retTrue       -- an inner `return True` fired
  | fallThrough   -- body completed without returning; function returns False
  | raisedExc     -- an Exception: caught by the except clause, returns False
  | raisedBase    -- a BaseException (e.g. KeyboardInterrupt): propagates
deriving DecidableEq, Repr

/-- Which of the pre-try awaits raise. -/
structure FailSpec where
  launchFails : Bool
  contextFails : Bool
  pageFails : Bool
  body : BodyOutcome
deriving DecidableEq, Repr

/-- Function outcome: `ret b` for a normal return, `raised` for an escaping
exception. -/
inductive DriverOutcome
  | ret (b : Bool)
  | raised (what : String)
deriving DecidableEq, Repr

/-- One run of the shared driver skeleton. -/
def driverRun (f : FailSpec) : DriverOutcome × List BrowserEvent :=
  if f.launchFails then (.raised "launch", [])
  else if f.contextFails then (.raised "new_context", [.launch])
  else if f.pageFails then (.raised "new_page", [.launch, .newContext])
  else
    match f.body with
    | .retTrue =>
      -- return True inside try; finally closes before the value is returned
      (.ret true, [.launch, .newContext, .newPage, .bodyOps, .close])
    | .fallThrough =>
      -- try ends, finally closes, `return False` after the with block
      (.ret false, [.launch, .newContext, .newPage, .bodyOps, .close])
    | .raisedExc =>
      -- except Exception: return False; finally closes first
      (.ret false, [.launch, .newContext, .newPage, .bodyOps, .close])
    | .raisedBase =>
      -- finally closes, then the exception propagates
      (.raised "base", [.launch, .newContext, .newPage, .bodyOps, .close])

/-! ## Filesystem model, mock driver and session log (C6, C7, C9)

Files are an association list from path to content; `FS.write` models
`open(path, "w")` + write (create or overwrite).  Directory creation
(`mkdir(parents=True, exist_ok=True)`) creates no files and is invisible in
this model.  Writes themselves are assumed to succeed (no disk-full
modelling). -/

inductive FileData
  | image (format : String) (width height : Nat) (mode : String)
  | jsonLog (tag : String)
  | textFile (tag : String)
  | other
deriving DecidableEq, Repr

abbrev FS := List (String × FileData)

def FS.read (fs : FS) (p : String) : Option FileData :=
  (fs.find? (fun q => q.1 == p)).map Prod.snd

def FS.write (fs : FS) (p : String) (d : FileData) : FS :=
  (p, d) :: fs.filter (fun q => !(q.1 == p))

/-! ### PIL pipeline (`mock_automation.py` lines 47-75)

PIL operations are modelled at their documented interface: each of
`ImageEnhance.*.enhance`, `filter(GaussianBlur)` and `filter(UnsharpMask)`
returns a new image of the same size and mode with transformed pixel
content; `convert("RGB")` changes only the mode.  Pixel content is abstract:
the `ops` field records, in order, the transformations applied to it. -/

structure PILImage where
  width : Nat
  height : Nat
  mode : String
  ops : List String
deriving DecidableEq, Repr

def PILImage.convertRGB (img : PILImage) : PILImage :=
  { img with mode := "RGB" }

def enhanceColor_1_5 (img : PILImage) : PILImage :=
  { img with ops := img.ops ++ ["Color 1.5"] }

def enhanceContrast_1_2 (img : PILImage) : PILImage :=
  { img with ops := img.ops ++ ["Contrast 1.2"] }

def gaussianBlur_0_5 (img : PILImage) : PILImage :=
  { img with ops := img.ops ++ ["GaussianBlur 0.5"] }

def unsharpMask_1_150_3 (img : PILImage) : PILImage :=
  { img with ops := img.ops ++ ["UnsharpMask 1 150 3"] }

def enhanceBrightness_1_1 (img : PILImage) : PILImage :=
  { img with ops := img.ops ++ ["Brightness 1.1"] }

/-- The fixed transformation sequence of `mock_automation.py` lines 57-71
(applied after the RGB conversion). -/
def mockPipeline (img : PILImage) : PILImage :=
  enhanceBrightness_1_1
    (unsharpMask_1_150_3
      (gaussianBlur_0_5
        (enhanceContrast_1_2
          (enhanceColor_1_5 img))))

/-- The image path the mock driver writes for a configured output directory
(`mock_automation.py` line 33: `output_dir / "mock-altered.jpg"`). -/
def mockAlteredPath (outDir : String) : String := outDir ++ "/mock-altered.jpg"

/-- Embedding of `async def mock_image_automation(input_file=None, output_dir=None)`
(`mock_automation.py` lines 19-108).  Returns the boolean result, the
filesystem after the call, and the list of image files opened with
`Image.open`.  `FileData.image` inputs are those PIL can open; any other
content makes `Image.open` raise, which the `except Exception` turns into
`False`. -/
def mock_image_automation (fs : FS) (input_file output_dir : Option String) :
    Bool × FS × List String :=
  let outDir := output_dir.getD "./data/output"
  let inPath := input_file.getD "./data/input/sample-original.jpg"
  let altered := mockAlteredPath outDir
  let logFile := "./data/logs/mock_automation_log.json"
  -- line 38: existence check before anything is opened or written
  match fs.read inPath with
  | none => (false, fs, [])
  | some fd =>
    match fd with
    | .image _ w h m =>
      let img : PILImage := { width := w, height := h, mode := m, ops := [] }
      let img := if img.mode != "RGB" then img.convertRGB else img
      let final := mockPipeline img
      -- line 75: final_img.save(altered_image_path, JPEG, quality=90)
      let fs1 := fs.write altered (.image "JPEG" final.width final.height final.mode)
      -- lines 96-97: json.dump(automation_log, ...)
      let fs2 := fs1.write logFile (.jsonLog "mock_automation_log")
      (true, fs2, [inPath])
    | _ =>
      -- Image.open raised; caught at line 106, returns False, nothing written
      (false, fs, [inPath])

/-! ### Session log (`main.py` lines 229-236 and 345-347) -/

/-- Embedding of `AutomationRunner.save_session_log`: writes one JSON file
`./data/logs/session_log_{service}_{int(time.time())}.json`.  Returns the
new filesystem and the path written. -/
def save_session_log (fs : FS) (service : String) (t : Nat) : FS × String :=
  let name := "./data/logs/session_log_" ++ service ++ "_" ++ toString t ++ ".json"
  (fs.write name (.jsonLog "session"), name)

/-- Embedding of `main.py` lines 345-356 once `run_service` has completed with boolean
`success`: the session log is saved (exactly one write), then the exit code
is decided.  Returns (exit code, filesystem). -/
def mainAfterRun (fs : FS) (service : String) (t : Nat) (success : Bool) :
    Nat × FS :=
  let (fs1, _) := save_session_log fs service t
  (if success then 0 else 1, fs1)

/-! ## Helper lemmas -/

theorem FS.read_write_self (fs : FS) (p : String) (d : FileData) :
    (fs.write p d).read p = some d := by
  simp [FS.read, FS.write, List.find?]

theorem find?_filter_of_imp {α : Type} (l : List α) (t g : α → Bool)
    (h : ∀ r, t r = true → g r = true) :
    (l.filter g).find? t = l.find? t := by
  induction l with
  | nil => rfl
  | cons a l ih =>
    rw [List.filter_cons]
    cases hg : g a with
    | true =>
      rw [if_pos rfl]
      cases ht : t a with
      | true =>
        rw [List.find?_cons_of_pos _ ht, List.find?_cons_of_pos _ ht]
      | false =>
        have hna : ¬ t a = true := by simp [ht]
        rw [List.find?_cons_of_neg _ hna, List.find?_cons_of_neg _ hna, ih]
    | false =>
      have ht : ¬ t a = true := fun hta => by simp [h a hta] at hg
      rw [if_neg Bool.false_ne_true, List.find?_cons_of_neg _ ht, ih]

theorem FS.read_write_ne (fs : FS) (p q : String) (d : FileData) (h : q ≠ p) :
    (fs.write p d).read q = fs.read q := by
  unfold FS.read FS.write
  rw [List.find?_cons_of_neg _ (by simp only [beq_iff_eq]; exact Ne.symm h)]
  rw [find?_filter_of_imp]
  intro r hr
  simp only [beq_iff_eq] at hr
  simp [hr, h]

theorem charPrefix_append_same (a b c : List Char) :
    charPrefix (a ++ b) (a ++ c) = charPrefix b c := by
  induction a with
  | nil => rfl
  | cons x t ih => simp [charPrefix, ih]

theorem probeSelectors_of_all_none {E : Type} (oracle : String → Option E)
    (ss : List String) (h : ∀ s ∈ ss, oracle s = none) :
    probeSelectors oracle ss = none := by
  induction ss with
  | nil => rfl
  | cons a t ih =>
    unfold probeSelectors
    rw [h a (by simp)]
    exact ih (fun s hs => h s (by simp [hs]))

theorem probeSelectors_first {E : Type} (oracle : String → Option E)
    (ss : List String) (s : String) (e : E)
    (h : probeSelectors oracle ss = some (s, e)) :
    oracle s = some e ∧
    ∃ pre post, ss = pre ++ s :: post ∧ ∀ s' ∈ pre, oracle s' = none := by
  induction ss with
  | nil => exact absurd h (by simp [probeSelectors])
  | cons a t ih =>
    unfold probeSelectors at h
    cases ho : oracle a with
    | some e2 =>
      rw [ho] at h
      simp only [Option.some.injEq, Prod.mk.injEq] at h
      obtain ⟨h1, h2⟩ := h
      subst h1; subst h2
      exact ⟨ho, [], t, rfl, by simp⟩
    | none =>
      rw [ho] at h
      obtain ⟨h1, pre, post, h2, h3⟩ := ih h
      refine ⟨h1, a :: pre, post, by simp [h2], ?_⟩
      intro s' hs'
      rcases List.mem_cons.mp hs' with h4 | h4
      · subst h4; exact ho
      · exact h3 s' h4

theorem deepaiImgLoop_eq_any (l : List Img) :
    deepaiImgLoop l = l.any deepaiGoodImg := by
  induction l with
  | nil => rfl
  | cons img rest ih =>
    simp only [deepaiImgLoop, List.any_cons, ← ih]
    cases h : img.src with
    | none => simp [h, deepaiGoodImg]
    | some s =>
      simp only [h, deepaiGoodImg]
      by_cases h1 : strStartsWith s "data:image"
      · by_cases h2 : img.dataLen > 5000 <;> simp [h1, h2]
      · by_cases h2 : img.status == 200
        · by_cases h3 : img.bodyLen > 5000 <;> simp [h1, h2, h3]
        · simp [h1, h2]

theorem bingImgLoop_eq_any (l : List Img) :
    bingImgLoop l = l.any bingGoodImg := by
  induction l with
  | nil => rfl
  | cons img rest ih =>
    simp only [bingImgLoop, List.any_cons, ← ih]
    cases h : img.src with
    | none => simp [h, bingGoodImg]
    | some s =>
      simp only [h, bingGoodImg]
      by_cases h1 : strContains s "bing.com"
      · by_cases h2 : img.status == 200
        · by_cases h3 : img.bodyLen > 1000 <;> simp [h1, h2, h3]
        · simp [h1, h2]
      · simp [h1]

theorem deepaiUrlLoop_of_no_input {E : Type} (io : String → String → Option E)
    (sp : String → Bool) (urls : List String)
    (h : ∀ url sel, io url sel = none) :
    deepaiUrlLoop io sp urls = (false, false) := by
  induction urls with
  | nil => rfl
  | cons u t ih =>
    unfold deepaiUrlLoop
    rw [probeSelectors_of_all_none _ _ (fun s _ => h u s)]
    exact ih

theorem mockAltered_ne_log (outDir : String) :
    mockAlteredPath outDir ≠ "./data/logs/mock_automation_log.json" := by
  intro heq
  have hd : (mockAlteredPath outDir).data.reverse.head? =
      ("./data/logs/mock_automation_log.json" : String).data.reverse.head? := by
    rw [heq]
  have h1 : (mockAlteredPath outDir).data = outDir.data ++ "/mock-altered.jpg".data := rfl
  rw [h1, List.reverse_append] at hd
  have h2 : ("/mock-altered.jpg".data.reverse ++ outDir.data.reverse).head? = some 'g' := rfl
  rw [h2] at hd
  exact absurd hd (by decide)

/-! ## Claims -/

/-- C1, counterexample: the claim says the process exit code of every
invocation of main is 0 or 1, but an invocation with an invalid `--mode`
value (here "video") makes argparse exit with status 2. -/
theorem C1_counterexample :
    ¬ (mainExit "video" "deepai" DEFAULT_INPUT false false RunOutcome.success = 0 ∨
       mainExit "video" "deepai" DEFAULT_INPUT false false RunOutcome.success = 1) := by
  decide

/-- C1, amended: for every invocation of main whose arguments parse
successfully (the `--mode` value is one of the argparse choices), the exit
code is 0 or 1, and it is 0 exactly when `--list-services` is passed or
both validations pass and the automation reports success; otherwise it
is 1 (validation failure, unsuccessful automation, interruption, or an
unexpected exception). -/
theorem C1_exit_code (mode service input : String) (inputExists listFlag : Bool)
    (out : RunOutcome) (hmode : MODE_CHOICES.contains mode = true) :
    (mainExit mode service input inputExists listFlag out = 0 ∨
     mainExit mode service input inputExists listFlag out = 1) ∧
    (mainExit mode service input inputExists listFlag out = 0 ↔
      (listFlag = true ∨
       (validate_service mode service = true ∧
        validate_input mode service (mainInputFile input inputExists) inputExists = true ∧
        out = RunOutcome.success))) := by
  unfold mainExit
  rw [hmode]
  cases listFlag with
  | true => simp
  | false =>
    cases hs : validate_service mode service with
    | false => simp [hs]
    | true =>
      cases hi : validate_input mode service (mainInputFile input inputExists) inputExists with
      | false => simp [hs, hi]
      | true => cases out <;> simp [hs, hi]

/-- Witness for C1: a concrete parsed invocation (image mode, deepai,
successful run) reaching exit code 0 or 1. -/
theorem C1_exit_code_witness :
    mainExit "image" "deepai" "./data/input/x.jpg" true false RunOutcome.success = 0 ∨
    mainExit "image" "deepai" "./data/input/x.jpg" true false RunOutcome.success = 1 :=
  (C1_exit_code "image" "deepai" "./data/input/x.jpg" true false RunOutcome.success
    (by decide)).1

/-- C2, counterexample: the claim says run_service never propagates an
exception for every service and mode, but for a service missing from the
dispatch table the dictionary access on line 149 of main.py is outside the
try block, so a KeyError escapes to the caller. -/
theorem C2_counterexample :
    run_service "image" "nonexistent" (PyResult.ok true) = PyResult.exn "KeyError" := by
  rfl

/-- C2, amended: for every service present in the dispatch table of the
mode, run_service never propagates an exception: any exception raised while
importing or executing the service module is caught, logged to the session
log as an automation_error event, and converted into the return value
False.  For a service absent from the table, the dictionary access before
the try block raises KeyError to the caller. -/
theorem C2_run_service_total (mode service : String) (info : ServiceInfo)
    (r : PyResult Bool)
    (h : lookupService (availableServices mode) service = some info) :
    (∃ b log, run_service mode service r = PyResult.ok (b, log)) ∧
    (∀ e, r = PyResult.exn e → SRC_MODULES.contains info.module = true →
      run_service mode service r =
        PyResult.ok (false, [LogEvent.automation_start, LogEvent.automation_error e])) := by
  simp only [run_service, h]
  constructor
  · by_cases hm : SRC_MODULES.contains info.module = true
    · rw [if_pos hm]
      cases r with
      | ok a =>
        cases a
        · exact ⟨false, _, rfl⟩
        · exact ⟨true, _, rfl⟩
      | exn e => exact ⟨false, _, rfl⟩
    · rw [if_neg hm]
      exact ⟨false, _, rfl⟩
  · intro e hre hm
    subst hre
    rw [if_pos hm]
    rfl

/-- Witness for C2: the deepai service with an automation that raises is
converted to a normal False return. -/
theorem C2_run_service_total_witness :
    ∃ b log, run_service "image" "deepai" (PyResult.exn "TimeoutError") =
      PyResult.ok (b, log) :=
  (C2_run_service_total "image" "deepai"
    { module := "deepai_image_alteration", function := "deepai_retry_automation",
      description := "DeepAI Text-to-Image automation (confirmed working)",
      requires_input := false, generates_new := true }
    (PyResult.exn "TimeoutError") rfl).1

/-- C3, counterexample: the claim says that whenever a selector matches an
element the driver reports success with no further condition, but the
deepai driver with one matched image whose data URL decodes to only 100
bytes (below the 5000-byte check) returns False. -/
theorem C3_counterexample :
    ¬ (∀ imgs : List Img, imgs ≠ [] → deepaiOutcomeGivenMatch imgs = true) := by
  intro hclaim
  have h := hclaim
    [{ src := some "data:image/png;base64,AAAA", dataLen := 100,
       status := 200, bodyLen := 100 }]
    (by decide)
  exact absurd h (by decide)

/-- C3, amended: a matched element is necessary but not sufficient for
success.  The deepai driver returns True exactly when one of the first two
matched images has a data URL of more than 5000 decoded bytes or a fetched
URL with HTTP status 200 and more than 5000 body bytes; the bing driver
returns True exactly when one of the first three matched images has a src
containing "bing.com", HTTP status 200 and more than 1000 body bytes. -/
theorem C3_success_requires_download_checks :
    (∀ imgs : List Img, deepaiOutcomeGivenMatch imgs = true ↔
       ∃ img ∈ imgs.take 2, deepaiGoodImg img = true) ∧
    (∀ imgs : List Img, bingOutcomeGivenMatch imgs = true ↔
       ∃ img ∈ imgs.take 3, bingGoodImg img = true) := by
  constructor
  · intro imgs
    rw [deepaiOutcomeGivenMatch, deepaiImgLoop_eq_any]
    simp [List.any_eq_true]
  · intro imgs
    rw [bingOutcomeGivenMatch, bingImgLoop_eq_any]
    simp [List.any_eq_true]

/-- C4: each driver probes its ordered selector list one at a time and uses
the first selector whose wait succeeds, skipping a selector only when the
wait raises; when no selector matches, the deepai URL loop and the openai
driver never submit a prompt and return False. -/
theorem C4_first_selector_wins :
    (∀ (oracle : String → Option Unit) (ss : List String),
       (∀ s ∈ ss, oracle s = none) → probeSelectors oracle ss = none) ∧
    (∀ (oracle : String → Option Unit) (ss : List String) (s : String) (e : Unit),
       probeSelectors oracle ss = some (s, e) →
       oracle s = some e ∧
       ∃ pre post, ss = pre ++ s :: post ∧ ∀ s' ∈ pre, oracle s' = none) ∧
    (∀ (io : String → String → Option Unit) (sp : String → Bool),
       (∀ url sel, io url sel = none) →
       deepaiProbeRun io sp = (false, false)) ∧
    (∀ (io : String → Option Unit) (sp : Unit → Bool),
       (∀ sel, io sel = none) →
       openaiProbeRun io sp = (false, false)) := by
  refine ⟨fun o ss h => probeSelectors_of_all_none o ss h,
          fun o ss s e h => probeSelectors_first o ss s e h, ?_, ?_⟩
  · intro io sp h
    exact deepaiUrlLoop_of_no_input io sp deepai_urls h
  · intro io sp h
    unfold openaiProbeRun
    rw [probeSelectors_of_all_none _ _ (fun s _ => h s)]

/-- Witness for C4: with a page where every wait raises, the probe loop
finds nothing. -/
theorem C4_first_selector_wins_witness :
    probeSelectors (fun _ => (none : Option Unit)) openai_input_selectors = none :=
  C4_first_selector_wins.1 (fun _ => none) openai_input_selectors (fun _ _ => rfl)

/-- C5: on every path of the shared driver skeleton on which the function
returns a boolean (success, no-match fall-through, and caught-exception
paths), exactly one browser launch appears in the trace, the browser close
appears exactly once, and the close is the last browser operation before
the return. -/
theorem C5_single_browser_closed (f : FailSpec) (b : Bool) (tr : List BrowserEvent)
    (h : driverRun f = (DriverOutcome.ret b, tr)) :
    tr.count BrowserEvent.launch = 1 ∧ tr.count BrowserEvent.close = 1 ∧
    tr.getLast? = some BrowserEvent.close := by
  rcases f with ⟨lf, cf, pf, body⟩
  cases lf <;> cases cf <;> cases pf <;> cases body <;> simp [driverRun] at h <;>
    (obtain ⟨hb, htr⟩ := h; subst hb; subst htr; decide)

/-- Witness for C5: the all-good run with an inner return True. -/
theorem C5_single_browser_closed_witness :
    ([BrowserEvent.launch, BrowserEvent.newContext, BrowserEvent.newPage,
      BrowserEvent.bodyOps, BrowserEvent.close].count BrowserEvent.launch = 1) ∧
    ([BrowserEvent.launch, BrowserEvent.newContext, BrowserEvent.newPage,
      BrowserEvent.bodyOps, BrowserEvent.close].count BrowserEvent.close = 1) ∧
    ([BrowserEvent.launch, BrowserEvent.newContext, BrowserEvent.newPage,
      BrowserEvent.bodyOps, BrowserEvent.close].getLast? = some BrowserEvent.close) :=
  C5_single_browser_closed ⟨false, false, false, BodyOutcome.retTrue⟩ true
    [BrowserEvent.launch, BrowserEvent.newContext, BrowserEvent.newPage,
     BrowserEvent.bodyOps, BrowserEvent.close] rfl

/-- C6: for every existing input image PIL can open, mock_image_automation
returns True and writes mock-altered.jpg in JPEG format in the output
directory with the pixel dimensions of the (RGB-converted) input; the fixed
transformation pipeline preserves width, height and mode. -/
theorem C6_mock_size_format (fs : FS) (inPath outDir fmt m : String) (w h : Nat)
    (hin : fs.read inPath = some (FileData.image fmt w h m)) :
    (mock_image_automation fs (some inPath) (some outDir)).1 = true ∧
    ((mock_image_automation fs (some inPath) (some outDir)).2.1).read (mockAlteredPath outDir)
      = some (FileData.image "JPEG" w h "RGB") ∧
    (∀ img : PILImage, (mockPipeline img).width = img.width ∧
       (mockPipeline img).height = img.height ∧ (mockPipeline img).mode = img.mode) := by
  have hrun : mock_image_automation fs (some inPath) (some outDir) =
      (true,
       ((fs.write (mockAlteredPath outDir) (FileData.image "JPEG" w h "RGB")).write
          "./data/logs/mock_automation_log.json" (FileData.jsonLog "mock_automation_log")),
       [inPath]) := by
    by_cases hm : m = "RGB"
    · subst hm
      simp [mock_image_automation, hin, mockPipeline, PILImage.convertRGB,
        enhanceBrightness_1_1, unsharpMask_1_150_3, gaussianBlur_0_5,
        enhanceContrast_1_2, enhanceColor_1_5]
    · have hb : (m != "RGB") = true := by simp [hm]
      simp [mock_image_automation, hin, hb, mockPipeline, PILImage.convertRGB,
        enhanceBrightness_1_1, unsharpMask_1_150_3, gaussianBlur_0_5,
        enhanceContrast_1_2, enhanceColor_1_5]
  rw [hrun]
  refine ⟨rfl, ?_, fun img => ⟨rfl, rfl, rfl⟩⟩
  rw [FS.read_write_ne _ _ _ _ (mockAltered_ne_log outDir), FS.read_write_self]

/-- Witness for C6: a concrete 640 by 480 greyscale input produces a JPEG
output of the same dimensions. -/
theorem C6_mock_size_format_witness :
    (mock_image_automation [("in.jpg", FileData.image "JPEG" 640 480 "L")]
        (some "in.jpg") (some "./data/output")).1 = true ∧
    ((mock_image_automation [("in.jpg", FileData.image "JPEG" 640 480 "L")]
        (some "in.jpg") (some "./data/output")).2.1).read
        (mockAlteredPath "./data/output")
      = some (FileData.image "JPEG" 640 480 "RGB") ∧
    (∀ img : PILImage, (mockPipeline img).width = img.width ∧
       (mockPipeline img).height = img.height ∧ (mockPipeline img).mode = img.mode) :=
  C6_mock_size_format [("in.jpg", FileData.image "JPEG" 640 480 "L")]
    "in.jpg" "./data/output" "JPEG" "L" 640 480 rfl

/-- C7: for every run in which run_service completes with a boolean, main
writes exactly one JSON session log file, placed under ./data/logs,
regardless of success or failure; files outside ./data/logs are untouched
by the log write, and the mock driver places its image output inside the
configured output directory. -/
theorem C7_one_session_log (fs : FS) (service : String) (t : Nat) (b : Bool) :
    ∃ name : String,
      (mainAfterRun fs service t b).2 = fs.write name (FileData.jsonLog "session") ∧
      strStartsWith name "./data/logs/" = true ∧
      ((mainAfterRun fs service t b).2).read name = some (FileData.jsonLog "session") ∧
      (∀ p : String, strStartsWith p "./data/logs/" = false →
        ((mainAfterRun fs service t b).2).read p = fs.read p) ∧
      (∀ outDir : String, strStartsWith (mockAlteredPath outDir) (outDir ++ "/") = true) := by
  refine ⟨"./data/logs/session_log_" ++ service ++ "_" ++ toString t ++ ".json",
    rfl, rfl, FS.read_write_self fs _ _, ?_, ?_⟩
  · intro p hp
    apply FS.read_write_ne
    intro hpn
    rw [hpn] at hp
    have hname : strStartsWith
        ("./data/logs/session_log_" ++ service ++ "_" ++ toString t ++ ".json")
        "./data/logs/" = true := rfl
    rw [hname] at hp
    simp at hp
  · intro outDir
    show charPrefix (outDir ++ "/").data (outDir ++ "/mock-altered.jpg").data = true
    have h1 : (outDir ++ "/").data = outDir.data ++ "/".data := rfl
    have h2 : (outDir ++ "/mock-altered.jpg").data =
        outDir.data ++ "/mock-altered.jpg".data := rfl
    rw [h1, h2, charPrefix_append_same]
    rfl

/-- Witness for C7: a concrete run writing its session log. -/
theorem C7_one_session_log_witness :
    ∃ name : String,
      (mainAfterRun [] "deepai" 1700000000 true).2 =
        FS.write [] name (FileData.jsonLog "session") ∧
      strStartsWith name "./data/logs/" = true ∧
      ((mainAfterRun [] "deepai" 1700000000 true).2).read name =
        some (FileData.jsonLog "session") ∧
      (∀ p : String, strStartsWith p "./data/logs/" = false →
        ((mainAfterRun [] "deepai" 1700000000 true).2).read p = FS.read [] p) ∧
      (∀ outDir : String, strStartsWith (mockAlteredPath outDir) (outDir ++ "/") = true) :=
  C7_one_session_log [] "deepai" 1700000000 true

/-- C8: for mode image and service mock, run_service always returns False:
the dispatch table names module mock_image_alteration, which does not exist
under src (the file is mock_automation), so the dynamic import raises
ModuleNotFoundError, which the broad except converts into False with an
automation_error log entry. -/
theorem C8_mock_dispatch_never_runs (r : PyResult Bool) :
    run_service "image" "mock" r =
      PyResult.ok (false, [LogEvent.automation_start,
        LogEvent.automation_error "ModuleNotFoundError"]) := by
  rfl

/-- C9: for every input path that does not exist, mock_image_automation
returns False, opens no image, and leaves the filesystem (in particular
the output directory) completely unchanged. -/
theorem C9_mock_missing_input (fs : FS) (input : String) (outDir : Option String)
    (h : fs.read input = none) :
    mock_image_automation fs (some input) outDir = (false, fs, []) := by
  simp [mock_image_automation, h]

/-- Witness for C9: a missing concrete path yields False with no writes. -/
theorem C9_mock_missing_input_witness :
    mock_image_automation [] (some "./data/input/missing.jpg") none = (false, [], []) :=
  C9_mock_missing_input [] "./data/input/missing.jpg" none rfl

end ImageGenUI
